import Mathlib

/-!
# Verification of the county-population data-preparation pipeline

A shallow embedding of `prepare_data.py` (and the artifact contract consumed
by `app.py`).  The pipeline fetches a county-boundary GeoJSON collection and a
census statistics table, cleans the statistics (numeric, strictly positive
population), derives log-magnitude / percentile-rank / color fields, joins on
the 5-character FIPS identifier, and emits a geometry+attributes artifact and
a flat tabular artifact.

Numeric modelling: census statistic values are integer counts (`ℤ`); the
result of `pd.to_numeric(..., errors="coerce")` on the raw string column is
modelled as `Option ℤ` (`none` = non-numeric, coerced to NaN, which fails the
`> 0` filter).  Percentile ranks are exact rationals (`ℚ`); the real-valued
`math.log10` is modelled over `ℝ`.  Python `int()` truncates toward zero and
`round(x, 4)` rounds half-to-even; both are modelled exactly.
-/

namespace PopulationCounty

/-- One data row of the census statistics response (the header row has
already been split off, as in `census_raw[0]` / `census_raw[1:]`).
`rawPop` is the `B01003_001E` column after `pd.to_numeric(..., errors="coerce")`
(line 54): `none` when the string is non-numeric. -/
structure CensusRow where
  name : String
  rawPop : Option ℤ
  state : String
  county : String
deriving DecidableEq

/-- Line 51: `df["FIPS"] = df["state"] + df["county"]`. -/
def fipsOf (r : CensusRow) : String := r.state ++ r.county

/-- A surviving row of the cleaned statistics table (after line 55's filter),
carrying the numeric population and the constructed FIPS code. -/
structure CleanRow where
  name : String
  population : ℤ
  fips : String
deriving DecidableEq

/-- The per-row effect of lines 54-55: keep the row exactly when its raw
population field parsed to a number that is strictly positive
(`df = df[df["population"] > 0]`). -/
def cleanRow1 (r : CensusRow) : Option CleanRow :=
  match r.rawPop with
  | some p => if 0 < p then some ⟨r.name, p, fipsOf r⟩ else none
  | none => none

/-- Lines 54-55 applied to the whole table. -/
def cleanRows (rows : List CensusRow) : List CleanRow :=
  rows.filterMap cleanRow1

/-- Line 79: `df["quantile"] = df["population"].rank(pct=True)` — the pandas
percentile rank with average ranks for ties: the mean ordinal rank of the
value's tie group, divided by the number of records. -/
def pctRank (pops : List ℤ) (v : ℤ) : ℚ :=
  ((pops.countP (fun x => decide (x < v)) : ℚ)
      + ((pops.countP (fun x => decide (x = v)) : ℚ) + 1) / 2)
    / (pops.length : ℚ)

/-- The `quantile` column value of a cleaned row within its table. -/
def quantileCol (tbl : List CleanRow) (r : CleanRow) : ℚ :=
  pctRank (tbl.map (fun c => c.population)) r.population

/-- Python `int()` applied to a (rational-modelled) float: truncation toward
zero. -/
def pyInt (q : ℚ) : ℤ :=
  if 0 ≤ q then ⌊q⌋ else ⌈q⌉

/-- Lines 82-96: `population_color(t)` — map the quantile rank to a
blue→cyan→green→yellow→red ramp with fixed alpha 200. -/
def population_color (t : ℚ) : List ℤ :=
  if t < 1/4 then
    [pyInt 30, pyInt (60 + 140 * (t / (1/4))),
     pyInt (150 + 105 * (t / (1/4))), 200]
  else if t < 1/2 then
    [pyInt (30 + 100 * ((t - 1/4) / (1/4))), pyInt (200 + 55 * ((t - 1/4) / (1/4))),
     pyInt (255 - 100 * ((t - 1/4) / (1/4))), 200]
  else if t < 3/4 then
    [pyInt (130 + 125 * ((t - 1/2) / (1/4))), pyInt (255 - 55 * ((t - 1/2) / (1/4))),
     pyInt (155 - 105 * ((t - 1/2) / (1/4))), 200]
  else
    [pyInt 255, pyInt (200 - 130 * ((t - 3/4) / (1/4))),
     pyInt (50 - 50 * ((t - 3/4) / (1/4))), 200]

/-- The exact (un-truncated) per-band linear channel formulas of lines 82-96,
as (R, G, B) rationals — the expressions inside the `int(...)` calls. -/
def colorFormula (t : ℚ) : ℚ × ℚ × ℚ :=
  if t < 1/4 then
    (30, 60 + 140 * (t / (1/4)), 150 + 105 * (t / (1/4)))
  else if t < 1/2 then
    (30 + 100 * ((t - 1/4) / (1/4)), 200 + 55 * ((t - 1/4) / (1/4)),
     255 - 100 * ((t - 1/4) / (1/4)))
  else if t < 3/4 then
    (130 + 125 * ((t - 1/2) / (1/4)), 255 - 55 * ((t - 1/2) / (1/4)),
     155 - 105 * ((t - 1/2) / (1/4)))
  else
    (255, 200 - 130 * ((t - 3/4) / (1/4)), 50 - 50 * ((t - 3/4) / (1/4)))

/-- Line 67: `math.log10(x + 1)`, over the reals. -/
noncomputable def log_pop (p : ℝ) : ℝ := Real.logb 10 (p + 1)

/-- Group decimal digits (given least-significant first) into blocks of
three, inserting the separator. -/
def groupDigits : List Char → List Char
  | a :: b :: c :: d :: rest => a :: b :: c :: ',' :: groupDigits (d :: rest)
  | l => l

/-- Line 70: `f"{int(x):,}"` — thousands-separated decimal rendering. -/
def commaFormat (n : ℕ) : String :=
  ⟨(groupDigits (Nat.repr n).data.reverse).reverse⟩

/-- Python `round` at a ties-to-even half: round a rational to the nearest
integer, halves to the even neighbour. -/
def roundHalfEven (y : ℚ) : ℤ :=
  if y - ⌊y⌋ < 1/2 then ⌊y⌋
  else if 1/2 < y - ⌊y⌋ then ⌊y⌋ + 1
  else if ⌊y⌋ % 2 = 0 then ⌊y⌋ else ⌊y⌋ + 1

/-- Python `round(x, 4)`: round to 4 decimal places. -/
def round4 (q : ℚ) : ℚ := (roundHalfEven (q * 10000) : ℚ) / 10000

/-- The attribute bundle stored in `value_lookup` (lines 107-116).  The
`log_pop` entry (line 112), a real number, is recovered as
`round4R (log_pop population)` rather than stored, keeping the record
decidable; see `geo_log_pop`. -/
structure CountyInfo where
  population : ℤ
  population_formatted : String
  quantile : ℚ
  fill_color : List ℤ
  county_name : String
deriving DecidableEq

/-- Lines 109-116: the bundle built from one cleaned row, given the
population column of the whole table. -/
def mkInfo (pops : List ℤ) (r : CleanRow) : CountyInfo :=
  { population := r.population
    population_formatted := commaFormat r.population.toNat
    quantile := round4 (pctRank pops r.population)
    fill_color := population_color (pctRank pops r.population)
    county_name := r.name }

/-- Lines 107-116: `value_lookup[fips]`.  Python dict insertion overwrites,
so a duplicated FIPS resolves to the *last* matching row. -/
def value_lookup (tbl : List CleanRow) (fips : String) : Option CountyInfo :=
  (tbl.reverse.find? (fun r => decide (r.fips = fips))).map
    (mkInfo (tbl.map (fun c => c.population)))

/-- One input boundary feature: the optional top-level `id` and the optional
`properties["GEO_ID"]` (geometry and other properties are carried opaquely
by the feature's identity). -/
structure Feature where
  idField : Option String
  geoId : Option String
deriving DecidableEq, Inhabited

/-- Python `s[-n:]`: the last `n` characters (the whole string when shorter). -/
def strLastN (s : String) (n : ℕ) : String :=
  ⟨s.data.drop (s.data.length - n)⟩

/-- Line 121: `feature.get("id") or feature["properties"].get("GEO_ID", "")[-5:]`
— a missing or empty (falsy) `id` falls back to the last 5 characters of
`GEO_ID` (empty string when that is missing too). -/
def featureFips (f : Feature) : String :=
  match f.idField with
  | some s => if s = "" then strLastN (f.geoId.getD "") 5 else s
  | none => strLastN (f.geoId.getD "") 5

/-- An output feature of the merged GeoJSON: the original feature plus the
properties injected at lines 124-130. -/
structure OutFeature where
  feature : Feature
  population : ℤ
  population_formatted : String
  quantile : ℚ
  fill_color : List ℤ
  county_name : String
  fips : String
deriving DecidableEq, Inhabited

/-- The body of the loop at lines 120-131: a feature whose FIPS is a key of
`value_lookup` is kept with the attribute bundle attached; any other feature
is dropped. -/
def matchFeature1 (tbl : List CleanRow) (f : Feature) : Option OutFeature :=
  match value_lookup tbl (featureFips f) with
  | some info =>
      some ⟨f, info.population, info.population_formatted, info.quantile,
        info.fill_color, info.county_name, featureFips f⟩
  | none => none

/-- Lines 119-133: keep exactly the boundary features whose FIPS is a key of
`value_lookup`, attaching the attribute bundle. -/
def matchedFeatures (tbl : List CleanRow) (fs : List Feature) : List OutFeature :=
  fs.filterMap (matchFeature1 tbl)

/-- One row of the flat tabular artifact (line 146): the unrounded `quantile`
column; the unrounded `log_pop` column is `csv_log_pop`. -/
structure CsvRow where
  fips : String
  name : String
  population : ℤ
  population_formatted : String
  quantile : ℚ
deriving DecidableEq

/-- Line 146: one exported row of
`df[["FIPS", "NAME", "population", "population_formatted", "log_pop", "quantile"]]`. -/
def csvRow1 (tbl : List CleanRow) (r : CleanRow) : CsvRow :=
  ⟨r.fips, r.name, r.population, commaFormat r.population.toNat, quantileCol tbl r⟩

/-- Lines 145-147: the flat tabular artifact. -/
def csvRows (tbl : List CleanRow) : List CsvRow :=
  tbl.map (csvRow1 tbl)

/-- `round(x, 4)` over the reals, for the real-valued `log_pop` column. -/
noncomputable def round4R (x : ℝ) : ℝ :=
  ((if x * 10000 - ⌊x * 10000⌋ < 1/2 then ⌊x * 10000⌋
    else if 1/2 < x * 10000 - ⌊x * 10000⌋ then ⌊x * 10000⌋ + 1
    else if ⌊x * 10000⌋ % 2 = 0 then ⌊x * 10000⌋ else ⌊x * 10000⌋ + 1 : ℤ) : ℝ)
    / 10000

/-- Line 112: the `log_pop` value stored in the GeoJSON property bag —
rounded to 4 decimal places. -/
noncomputable def geo_log_pop (f : OutFeature) : ℝ :=
  round4R (log_pop (f.population : ℝ))

/-- Line 146: the `log_pop` value stored in the CSV artifact — the unrounded
column of line 67. -/
noncomputable def csv_log_pop (r : CsvRow) : ℝ :=
  log_pop (r.population : ℝ)

/-- An HTTP response: status code and parsed body. -/
structure Response (α : Type) where
  status : ℕ
  body : α

/-- Lines 26/42: `resp.raise_for_status()` — `requests` raises `HTTPError`
exactly when the status code is in 400-599. -/
def raise_for_status {α : Type} (r : Response α) : Except String α :=
  if 400 ≤ r.status ∧ r.status < 600 then Except.error "HTTPError" else Except.ok r.body

/-- The pipeline's two persisted artifacts, produced together at lines
136-147. -/
structure PipelineOutput where
  geojson : List OutFeature
  csv : List CsvRow
deriving DecidableEq

/-- The whole script as a function of the two fetch results (an `Except`
input models a transport-level failure of `requests.get`); the `bind`
chain models the straight-line script aborting at the first raised
exception, so the output is all-or-nothing. -/
def pipeline (bresp : Except String (Response (List Feature)))
    (cresp : Except String (Response (List CensusRow))) :
    Except String PipelineOutput :=
  Except.bind bresp fun br =>
    Except.bind (raise_for_status br) fun features =>
      Except.bind cresp fun cr =>
        Except.bind (raise_for_status cr) fun rows =>
          Except.ok ⟨matchedFeatures (cleanRows rows) features, csvRows (cleanRows rows)⟩

/-- A fetch step failed: transport error, or an HTTP status that
`raise_for_status` rejects. -/
def fetchFailed {α : Type} : Except String (Response α) → Prop
  | Except.error _ => True
  | Except.ok r => 400 ≤ r.status ∧ r.status < 600

instance {α : Type} (x : Except String (Response α)) : Decidable (fetchFailed x) := by
  cases x with
  | error e => exact isTrue trivial
  | ok r => exact instDecidableAnd

/-- The end-to-end scenario of the spec: two boundary polygons and a
statistics response mapping 06037 to 10,000,000 and 06073 to 3,000,000. -/
def scenarioRows : List CensusRow :=
  [⟨"Los Angeles County, California", some 10000000, "06", "037"⟩,
   ⟨"San Diego County, California", some 3000000, "06", "073"⟩]

/-- The boundary collection of the end-to-end scenario. -/
def scenarioFeatures : List Feature :=
  [⟨some "06037", none⟩, ⟨some "06073", none⟩]

/-- The merged geometry artifact of the end-to-end scenario. -/
def scenarioOut : List OutFeature :=
  matchedFeatures (cleanRows scenarioRows) scenarioFeatures

/-- A statistics response with two tied populations, for the
tie-determinism instance. -/
def tieRows : List CensusRow :=
  [⟨"Autauga County, Alabama", some 5, "01", "001"⟩,
   ⟨"Baldwin County, Alabama", some 5, "01", "003"⟩]

/-- Three counties with distinct populations; the percentile ranks 1/3 and
2/3 are not representable in 4 decimal places, so the two artifacts report
different rank values. -/
def divergeRows : List CensusRow :=
  [⟨"Autauga County, Alabama", some 1, "01", "001"⟩,
   ⟨"Baldwin County, Alabama", some 2, "01", "003"⟩,
   ⟨"Barbour County, Alabama", some 3, "01", "005"⟩]

/-- The boundary collection matching `divergeRows`. -/
def divergeFeatures : List Feature :=
  [⟨some "01001", none⟩, ⟨some "01003", none⟩, ⟨some "01005", none⟩]

/-! ## Helper lemmas -/

lemma pyInt_eq_floor {q : ℚ} (h : 0 ≤ q) : pyInt q = ⌊q⌋ := if_pos h

lemma raise_for_status_fail {α : Type} (r : Response α)
    (h : 400 ≤ r.status ∧ r.status < 600) :
    raise_for_status r = Except.error "HTTPError" := if_pos h

lemma raise_for_status_ok {α : Type} (r : Response α)
    (h : ¬ (400 ≤ r.status ∧ r.status < 600)) :
    raise_for_status r = Except.ok r.body := if_neg h

lemma pctRank_eval (pops : List ℤ) (v : ℤ) (a b n : ℕ)
    (ha : pops.countP (fun x => decide (x < v)) = a)
    (hb : pops.countP (fun x => decide (x = v)) = b)
    (hn : pops.length = n) :
    pctRank pops v = ((a : ℚ) + ((b : ℚ) + 1) / 2) / (n : ℚ) := by
  unfold pctRank
  rw [ha, hb, hn]

lemma mem_matchedFeatures {tbl : List CleanRow} {fs : List Feature} {of : OutFeature}
    (h : of ∈ matchedFeatures tbl fs) :
    ∃ f ∈ fs, matchFeature1 tbl f = some of :=
  List.mem_filterMap.mp h

lemma cleanRow1_eq_some {r : CensusRow} {c : CleanRow} (h : cleanRow1 r = some c) :
    r.rawPop = some c.population ∧ 0 < c.population ∧ c.fips = fipsOf r ∧ c.name = r.name := by
  obtain ⟨nm, rp, st, ct⟩ := r
  cases rp with
  | none => exact Option.noConfusion h
  | some p =>
    have h2 : (if 0 < p then some (⟨nm, p, st ++ ct⟩ : CleanRow) else none) = some c := h
    by_cases hp : 0 < p
    · rw [if_pos hp] at h2
      injection h2 with h3
      subst h3
      exact ⟨rfl, hp, rfl, rfl⟩
    · rw [if_neg hp] at h2
      exact Option.noConfusion h2

lemma value_lookup_eq_some {tbl : List CleanRow} {x : String} {info : CountyInfo}
    (h : value_lookup tbl x = some info) :
    ∃ r ∈ tbl, r.fips = x ∧ info = mkInfo (tbl.map (fun c => c.population)) r := by
  unfold value_lookup at h
  cases hf : tbl.reverse.find? (fun r => decide (r.fips = x)) with
  | none => rw [hf] at h; exact Option.noConfusion h
  | some r =>
    rw [hf] at h
    injection h with h2
    have hp := List.find?_some hf
    exact ⟨r, List.mem_reverse.mp (List.mem_of_find?_eq_some hf),
      of_decide_eq_true hp, h2.symm⟩

lemma matchFeature1_eq_some {tbl : List CleanRow} {f : Feature} {of : OutFeature}
    (h : matchFeature1 tbl f = some of) :
    ∃ info, value_lookup tbl (featureFips f) = some info ∧
      of = ⟨f, info.population, info.population_formatted, info.quantile,
        info.fill_color, info.county_name, featureFips f⟩ := by
  unfold matchFeature1 at h
  cases hv : value_lookup tbl (featureFips f) with
  | none => rw [hv] at h; exact Option.noConfusion h
  | some info =>
    rw [hv] at h
    injection h with h2
    exact ⟨info, rfl, h2.symm⟩

lemma countP_lt_add_countP_eq (pops : List ℤ) (v : ℤ) :
    pops.countP (fun x => decide (x < v)) + pops.countP (fun x => decide (x = v))
      = pops.countP (fun x => decide (x ≤ v)) := by
  induction pops with
  | nil => rfl
  | cons a t ih =>
    rcases lt_trichotomy a v with h | h | h
    · simp [List.countP_cons, h, ne_of_lt h, le_of_lt h]
      omega
    · subst h
      simp [List.countP_cons, lt_self_iff_false, le_refl]
      omega
    · simp [List.countP_cons, not_lt.mpr (le_of_lt h), not_le.mpr h, ne_of_gt h]
      omega

lemma length_pos_q {pops : List ℤ} {v : ℤ} (hv : v ∈ pops) : (0 : ℚ) < (pops.length : ℚ) := by
  have h := List.length_pos.mpr (List.ne_nil_of_mem hv)
  exact_mod_cast h

lemma countP_eq_ge_one {pops : List ℤ} {v : ℤ} (hv : v ∈ pops) :
    1 ≤ pops.countP (fun x => decide (x = v)) :=
  List.countP_pos_iff.mpr ⟨v, hv, decide_eq_true rfl⟩

lemma pctRank_pos {pops : List ℤ} {v : ℤ} (hv : v ∈ pops) : 0 < pctRank pops v := by
  unfold pctRank
  apply div_pos _ (length_pos_q hv)
  have hA : (0 : ℚ) ≤ (pops.countP (fun x => decide (x < v)) : ℚ) := by positivity
  have hB : (1 : ℚ) ≤ (pops.countP (fun x => decide (x = v)) : ℚ) := by
    exact_mod_cast countP_eq_ge_one hv
  linarith

lemma pctRank_le_one {pops : List ℤ} {v : ℤ} (hv : v ∈ pops) : pctRank pops v ≤ 1 := by
  unfold pctRank
  rw [div_le_one (length_pos_q hv)]
  have hsum : pops.countP (fun x => decide (x < v)) + pops.countP (fun x => decide (x = v))
      ≤ pops.length := by
    rw [countP_lt_add_countP_eq]
    exact List.countP_le_length _
  have hc : ((pops.countP (fun x => decide (x < v)) : ℚ)
      + (pops.countP (fun x => decide (x = v)) : ℚ)) ≤ (pops.length : ℚ) := by
    exact_mod_cast hsum
  have hB : (1 : ℚ) ≤ (pops.countP (fun x => decide (x = v)) : ℚ) := by
    exact_mod_cast countP_eq_ge_one hv
  linarith

lemma pctRank_mono {pops : List ℤ} {v w : ℤ} (hv : v ∈ pops) (hvw : v ≤ w) :
    pctRank pops v ≤ pctRank pops w := by
  rcases eq_or_lt_of_le hvw with rfl | hlt
  · exact le_refl _
  · unfold pctRank
    apply (div_le_div_iff_of_pos_right (length_pos_q hv)).mpr
    have key : pops.countP (fun x => decide (x ≤ v)) ≤ pops.countP (fun x => decide (x < w)) := by
      apply List.countP_mono_left
      intro a _ ha
      exact decide_eq_true (lt_of_le_of_lt (of_decide_eq_true ha) hlt)
    have hdec := countP_lt_add_countP_eq pops v
    have hkey : pops.countP (fun x => decide (x < v)) + pops.countP (fun x => decide (x = v))
        ≤ pops.countP (fun x => decide (x < w)) := by omega
    have hq : ((pops.countP (fun x => decide (x < v)) : ℚ)
        + (pops.countP (fun x => decide (x = v)) : ℚ))
        ≤ (pops.countP (fun x => decide (x < w)) : ℚ) := by exact_mod_cast hkey
    have hB1 : (1 : ℚ) ≤ (pops.countP (fun x => decide (x = v)) : ℚ) := by
      exact_mod_cast countP_eq_ge_one hv
    have hB2 : (0 : ℚ) ≤ (pops.countP (fun x => decide (x = w)) : ℚ) := by positivity
    linarith

/-! ## Claims -/

/-- C2: a statistics row survives cleaning iff its raw population field
parsed to a number that is strictly positive; any failing row — the
sentinel -666666666, a zero, or a non-numeric value — contributes nothing
to the cleaned table, hence to neither artifact. -/
theorem claim_C2 :
    (∀ r : CensusRow, (cleanRow1 r).isSome = true ↔ ∃ p, r.rawPop = some p ∧ 0 < p) ∧
    (∀ (pre post : List CensusRow) (bad : CensusRow),
      (¬ ∃ p : ℤ, bad.rawPop = some p ∧ 0 < p) →
      cleanRows (pre ++ bad :: post) = cleanRows (pre ++ post)) := by
  have hiff : ∀ r : CensusRow, (cleanRow1 r).isSome = true ↔ ∃ p, r.rawPop = some p ∧ 0 < p := by
    intro r
    obtain ⟨nm, rp, st, ct⟩ := r
    cases rp with
    | none => simp [cleanRow1]
    | some p =>
      by_cases hp : 0 < p
      · simp [cleanRow1, hp]
      · simp [cleanRow1, hp]
  refine ⟨hiff, fun pre post bad hbad => ?_⟩
  have hnone : cleanRow1 bad = none := by
    cases hcb : cleanRow1 bad with
    | none => rfl
    | some c =>
      exact absurd ((hiff bad).mp (by rw [hcb]; rfl)) hbad
  unfold cleanRows
  rw [List.filterMap_append, List.filterMap_append, List.filterMap_cons, hnone]

/-- Witness for C2 at the sentinel row: the row with value -666666666 is
dropped from the cleaned table. -/
theorem claim_C2_witness :
    cleanRows ([] ++ (⟨"Nowhere County", some (-666666666), "06", "037"⟩ : CensusRow) :: [])
      = cleanRows ([] ++ []) :=
  claim_C2.2 [] [] ⟨"Nowhere County", some (-666666666), "06", "037"⟩
    (by rintro ⟨p, hp, hpos⟩; injection hp with h; omega)

/-- C3: the color ramp takes exactly the five documented boundary values at
ranks 0, 0.25, 0.5, 0.75 and 1. -/
theorem claim_C3 :
    population_color 0 = [30, 60, 150, 200] ∧
    population_color (1/4) = [30, 200, 255, 200] ∧
    population_color (1/2) = [130, 255, 155, 200] ∧
    population_color (3/4) = [255, 200, 50, 200] ∧
    population_color 1 = [255, 70, 0, 200] := by
  norm_num [population_color, pyInt]

/-- C4 (amended): on [0, 1] each R/G/B channel of the ramp is the band's
linear formula truncated toward zero (equivalently floored, the formulas
being nonnegative there), not rounded to nearest, and the alpha channel is
the constant 200. -/
theorem claim_C4 (t : ℚ) (h0 : 0 ≤ t) (h1 : t ≤ 1) :
    population_color t
      = [⌊(colorFormula t).1⌋, ⌊(colorFormula t).2.1⌋, ⌊(colorFormula t).2.2⌋, 200] := by
  unfold population_color colorFormula
  split_ifs with ht1 ht2 ht3
  · have hs0 : 0 ≤ t / (1/4) := div_nonneg h0 (by norm_num)
    rw [pyInt_eq_floor (by norm_num : (0:ℚ) ≤ 30),
      pyInt_eq_floor (by linarith : (0:ℚ) ≤ 60 + 140 * (t / (1/4))),
      pyInt_eq_floor (by linarith : (0:ℚ) ≤ 150 + 105 * (t / (1/4)))]
  · have hs0 : 0 ≤ (t - 1/4) / (1/4) := div_nonneg (by linarith) (by norm_num)
    have hs1 : (t - 1/4) / (1/4) < 1 := (div_lt_one (by norm_num)).mpr (by linarith)
    rw [pyInt_eq_floor (by linarith : (0:ℚ) ≤ 30 + 100 * ((t - 1/4) / (1/4))),
      pyInt_eq_floor (by linarith : (0:ℚ) ≤ 200 + 55 * ((t - 1/4) / (1/4))),
      pyInt_eq_floor (by linarith : (0:ℚ) ≤ 255 - 100 * ((t - 1/4) / (1/4)))]
  · have hs0 : 0 ≤ (t - 1/2) / (1/4) := div_nonneg (by linarith) (by norm_num)
    have hs1 : (t - 1/2) / (1/4) < 1 := (div_lt_one (by norm_num)).mpr (by linarith)
    rw [pyInt_eq_floor (by linarith : (0:ℚ) ≤ 130 + 125 * ((t - 1/2) / (1/4))),
      pyInt_eq_floor (by linarith : (0:ℚ) ≤ 255 - 55 * ((t - 1/2) / (1/4))),
      pyInt_eq_floor (by linarith : (0:ℚ) ≤ 155 - 105 * ((t - 1/2) / (1/4)))]
  · have hs0 : 0 ≤ (t - 3/4) / (1/4) := div_nonneg (by linarith) (by norm_num)
    have hs1 : (t - 3/4) / (1/4) ≤ 1 := (div_le_one (by norm_num)).mpr (by linarith)
    rw [pyInt_eq_floor (by norm_num : (0:ℚ) ≤ 255),
      pyInt_eq_floor (by linarith : (0:ℚ) ≤ 200 - 130 * ((t - 3/4) / (1/4))),
      pyInt_eq_floor (by linarith : (0:ℚ) ≤ 50 - 50 * ((t - 3/4) / (1/4)))]

/-- Counterexample to C4 as stated: at rank 1/800 the green formula is 60.7,
whose nearest integer is 61, but the code truncates to 60 — the output is
not the channelwise rounding of the formulas. -/
theorem claim_C4_counterexample :
    population_color (1/800)
      ≠ [round (colorFormula (1/800)).1, round (colorFormula (1/800)).2.1,
         round (colorFormula (1/800)).2.2, 200] := by
  norm_num [population_color, colorFormula, pyInt, round_eq]

/-- Witness for C4 (amended) at rank 1/800. -/
theorem claim_C4_witness :
    (0 : ℚ) ≤ 1/800 ∧ (1/800 : ℚ) ≤ 1 ∧
    population_color (1/800)
      = [⌊(colorFormula (1/800)).1⌋, ⌊(colorFormula (1/800)).2.1⌋,
         ⌊(colorFormula (1/800)).2.2⌋, 200] :=
  ⟨by norm_num, by norm_num, claim_C4 (1/800) (by norm_num) (by norm_num)⟩

/-- C5: over any cleaned table, every record's percentile rank lies in
(0, 1], the rank is monotone non-decreasing in population, and tied
populations receive equal (average) ranks. -/
theorem claim_C5 (rows : List CensusRow) (r₁ r₂ : CleanRow)
    (h₁ : r₁ ∈ cleanRows rows) (_h₂ : r₂ ∈ cleanRows rows)
    (hle : r₁.population ≤ r₂.population) :
    (0 < quantileCol (cleanRows rows) r₁ ∧ quantileCol (cleanRows rows) r₁ ≤ 1) ∧
    quantileCol (cleanRows rows) r₁ ≤ quantileCol (cleanRows rows) r₂ ∧
    (r₁.population = r₂.population →
      quantileCol (cleanRows rows) r₁ = quantileCol (cleanRows rows) r₂) := by
  have hm₁ : r₁.population ∈ (cleanRows rows).map (fun c => c.population) :=
    List.mem_map_of_mem _ h₁
  exact ⟨⟨pctRank_pos hm₁, pctRank_le_one hm₁⟩, pctRank_mono hm₁ hle,
    fun h => by unfold quantileCol; rw [h]⟩

/-- Witness for C5 on the two-county scenario table. -/
theorem claim_C5_witness :
    (0 < quantileCol (cleanRows scenarioRows) ⟨"San Diego County, California", 3000000, "06073"⟩ ∧
      quantileCol (cleanRows scenarioRows) ⟨"San Diego County, California", 3000000, "06073"⟩ ≤ 1) ∧
    quantileCol (cleanRows scenarioRows) ⟨"San Diego County, California", 3000000, "06073"⟩
      ≤ quantileCol (cleanRows scenarioRows)
          ⟨"Los Angeles County, California", 10000000, "06037"⟩ ∧
    ((⟨"San Diego County, California", 3000000, "06073"⟩ : CleanRow).population
        = (⟨"Los Angeles County, California", 10000000, "06037"⟩ : CleanRow).population →
      quantileCol (cleanRows scenarioRows) ⟨"San Diego County, California", 3000000, "06073"⟩
        = quantileCol (cleanRows scenarioRows)
            ⟨"Los Angeles County, California", 10000000, "06037"⟩) :=
  claim_C5 scenarioRows ⟨"San Diego County, California", 3000000, "06073"⟩
    ⟨"Los Angeles County, California", 10000000, "06037"⟩
    (by decide) (by decide) (by decide)

/-- C6: the log-scaled magnitude is log base 10 of (p + 1), and it is
strictly increasing in the population for positive populations. -/
theorem claim_C6 (p q : ℝ) (hp : 0 < p) (hpq : p < q) :
    log_pop p = Real.log (p + 1) / Real.log 10 ∧ log_pop p < log_pop q := by
  refine ⟨rfl, ?_⟩
  unfold log_pop
  exact Real.logb_lt_logb (by norm_num) (by linarith) (by linarith)

/-- Witness for C6 at populations 1 and 2. -/
theorem claim_C6_witness :
    (0 : ℝ) < 1 ∧ (1 : ℝ) < 2 ∧
    (log_pop 1 = Real.log (1 + 1) / Real.log 10 ∧ log_pop 1 < log_pop 2) :=
  ⟨by norm_num, by norm_num, claim_C6 1 2 (by norm_num) (by norm_num)⟩

/-- C1: assuming the statistics source's fixed-width sub-codes (2-digit
state, 3-digit county), every feature of the output collection has a
matching entry in the cleaned table, a strictly positive population and a
5-character identifier; and a boundary polygon whose identifier matches no
cleaned entry is dropped from the output rather than retained. -/
theorem claim_C1 (rows : List CensusRow) (fs : List Feature)
    (hw : ∀ r ∈ rows, r.state.length = 2 ∧ r.county.length = 3) :
    (∀ of ∈ matchedFeatures (cleanRows rows) fs,
        (∃ r ∈ cleanRows rows, r.fips = of.fips) ∧ 0 < of.population ∧ of.fips.length = 5) ∧
    (∀ g : Feature, (∀ r ∈ cleanRows rows, r.fips ≠ featureFips g) →
      ∀ pre post : List Feature,
        matchedFeatures (cleanRows rows) (pre ++ g :: post)
          = matchedFeatures (cleanRows rows) pre ++ matchedFeatures (cleanRows rows) post) := by
  constructor
  · intro of hof
    obtain ⟨f, _, hm1⟩ := mem_matchedFeatures hof
    obtain ⟨info, hlook, hofe⟩ := matchFeature1_eq_some hm1
    obtain ⟨r, hr, hrf, hinfo⟩ := value_lookup_eq_some hlook
    subst hofe
    subst hinfo
    obtain ⟨r0, hr0, hcr⟩ := List.mem_filterMap.mp hr
    obtain ⟨_, hpos, hfips0, _⟩ := cleanRow1_eq_some hcr
    refine ⟨⟨r, hr, hrf⟩, hpos, ?_⟩
    show (featureFips f).length = 5
    rw [← hrf, hfips0]
    unfold fipsOf
    rw [String.length_append]
    obtain ⟨hs, hc⟩ := hw r0 hr0
    rw [hs, hc]
  · intro g hg pre post
    have hnone : value_lookup (cleanRows rows) (featureFips g) = none := by
      unfold value_lookup
      have hall : ∀ x ∈ (cleanRows rows).reverse,
          ¬ ((fun r => decide (r.fips = featureFips g)) x = true) := by
        intro x hx hdec
        exact hg x (List.mem_reverse.mp hx) (of_decide_eq_true hdec)
      rw [List.find?_eq_none.mpr hall]
      rfl
    have hmf1 : matchFeature1 (cleanRows rows) g = none := by
      unfold matchFeature1
      rw [hnone]
    unfold matchedFeatures
    rw [List.filterMap_append, List.filterMap_cons, hmf1]

/-- Witness for C1 on the two-county scenario. -/
theorem claim_C1_witness :
    (∀ of ∈ matchedFeatures (cleanRows scenarioRows) scenarioFeatures,
        (∃ r ∈ cleanRows scenarioRows, r.fips = of.fips)
          ∧ 0 < of.population ∧ of.fips.length = 5) ∧
    (∀ g : Feature, (∀ r ∈ cleanRows scenarioRows, r.fips ≠ featureFips g) →
      ∀ pre post : List Feature,
        matchedFeatures (cleanRows scenarioRows) (pre ++ g :: post)
          = matchedFeatures (cleanRows scenarioRows) pre
            ++ matchedFeatures (cleanRows scenarioRows) post) :=
  claim_C1 scenarioRows scenarioFeatures (by decide)

/-- C7: on the two-county end-to-end scenario the output collection holds
exactly the identifiers 06037 and 06073, and 06037 has the strictly higher
rank, log-scaled magnitude and red channel. -/
theorem claim_C7 :
    scenarioOut.map (fun f => f.fips) = ["06037", "06073"] ∧
    ∃ a b, scenarioOut = [a, b] ∧ a.fips = "06037" ∧ b.fips = "06073" ∧
      b.quantile < a.quantile ∧
      log_pop ((b.population : ℝ)) < log_pop ((a.population : ℝ)) ∧
      b.fill_color.headI < a.fill_color.headI := by
  refine ⟨rfl, _, _, rfl, rfl, rfl, ?_, ?_, ?_⟩
  · show round4 (pctRank [10000000, 3000000] 3000000)
      < round4 (pctRank [10000000, 3000000] 10000000)
    rw [pctRank_eval [10000000, 3000000] 3000000 0 1 2 (by decide) (by decide) (by decide),
      pctRank_eval [10000000, 3000000] 10000000 1 1 2 (by decide) (by decide) (by decide)]
    norm_num [round4, roundHalfEven]
  · show log_pop (((3000000 : ℤ) : ℝ)) < log_pop (((10000000 : ℤ) : ℝ))
    unfold log_pop
    apply Real.logb_lt_logb (by norm_num) (by norm_num) (by norm_num)
  · show (population_color (pctRank [10000000, 3000000] 3000000)).headI
      < (population_color (pctRank [10000000, 3000000] 10000000)).headI
    rw [pctRank_eval [10000000, 3000000] 3000000 0 1 2 (by decide) (by decide) (by decide),
      pctRank_eval [10000000, 3000000] 10000000 1 1 2 (by decide) (by decide) (by decide)]
    norm_num [population_color, pyInt, List.headI]

/-- C8: a transport error or a raise-worthy HTTP status on either fetch
makes the whole pipeline fail, so neither artifact is produced. -/
theorem claim_C8 (b : Except String (Response (List Feature)))
    (c : Except String (Response (List CensusRow)))
    (h : fetchFailed b ∨ fetchFailed c) :
    ∃ e, pipeline b c = Except.error e := by
  cases b with
  | error e => exact ⟨e, rfl⟩
  | ok rb =>
    by_cases hb : 400 ≤ rb.status ∧ rb.status < 600
    · refine ⟨"HTTPError", ?_⟩
      show Except.bind (raise_for_status rb) _ = _
      rw [raise_for_status_fail rb hb]
      rfl
    · have hc : fetchFailed c := by
        rcases h with hb' | hc'
        · exact absurd hb' hb
        · exact hc'
      cases c with
      | error e =>
        refine ⟨e, ?_⟩
        show Except.bind (raise_for_status rb) _ = _
        rw [raise_for_status_ok rb hb]
        rfl
      | ok rc =>
        have hc2 : 400 ≤ rc.status ∧ rc.status < 600 := hc
        refine ⟨"HTTPError", ?_⟩
        show Except.bind (raise_for_status rb) _ = _
        rw [raise_for_status_ok rb hb]
        show Except.bind (raise_for_status rc) _ = _
        rw [raise_for_status_fail rc hc2]
        rfl

/-- Witness for C8: a 404 on the boundary fetch aborts the pipeline. -/
theorem claim_C8_witness :
    ∃ e, pipeline (Except.ok ⟨404, []⟩) (Except.ok ⟨200, scenarioRows⟩) = Except.error e :=
  claim_C8 (Except.ok ⟨404, []⟩) (Except.ok ⟨200, scenarioRows⟩) (Or.inl (by decide))

/-- C9: the pipeline is a deterministic function of the two responses —
two runs on identical inputs agree — and tied populations receive
identical rank, color and log-scaled magnitude. -/
theorem claim_C9 :
    (∀ (b : Except String (Response (List Feature)))
        (c : Except String (Response (List CensusRow))) (out₁ out₂ : PipelineOutput),
      pipeline b c = Except.ok out₁ → pipeline b c = Except.ok out₂ → out₁ = out₂) ∧
    (∀ (rows : List CensusRow) (r₁ r₂ : CleanRow), r₁.population = r₂.population →
      quantileCol (cleanRows rows) r₁ = quantileCol (cleanRows rows) r₂ ∧
      population_color (quantileCol (cleanRows rows) r₁)
        = population_color (quantileCol (cleanRows rows) r₂) ∧
      log_pop ((r₁.population : ℝ)) = log_pop ((r₂.population : ℝ))) := by
  constructor
  · intro b c out₁ out₂ h1 h2
    rw [h1] at h2
    injection h2 with h3
  · intro rows r₁ r₂ hpop
    have hq : quantileCol (cleanRows rows) r₁ = quantileCol (cleanRows rows) r₂ := by
      unfold quantileCol
      rw [hpop]
    exact ⟨hq, by rw [hq], by rw [hpop]⟩

/-- Witness for C9: the scenario run agrees with itself, and the two tied
rows of `tieRows` get identical derived fields. -/
theorem claim_C9_witness :
    ((⟨matchedFeatures (cleanRows scenarioRows) scenarioFeatures,
        csvRows (cleanRows scenarioRows)⟩ : PipelineOutput)
      = ⟨matchedFeatures (cleanRows scenarioRows) scenarioFeatures,
        csvRows (cleanRows scenarioRows)⟩) ∧
    (quantileCol (cleanRows tieRows) ⟨"Autauga County, Alabama", 5, "01001"⟩
        = quantileCol (cleanRows tieRows) ⟨"Baldwin County, Alabama", 5, "01003"⟩ ∧
      population_color (quantileCol (cleanRows tieRows) ⟨"Autauga County, Alabama", 5, "01001"⟩)
        = population_color
            (quantileCol (cleanRows tieRows) ⟨"Baldwin County, Alabama", 5, "01003"⟩) ∧
      log_pop ((((⟨"Autauga County, Alabama", 5, "01001"⟩ : CleanRow).population : ℤ) : ℝ))
        = log_pop ((((⟨"Baldwin County, Alabama", 5, "01003"⟩ : CleanRow).population : ℤ) : ℝ))) :=
  ⟨claim_C9.1 (Except.ok ⟨200, scenarioFeatures⟩) (Except.ok ⟨200, scenarioRows⟩) _ _ rfl rfl,
   claim_C9.2 tieRows ⟨"Autauga County, Alabama", 5, "01001"⟩
     ⟨"Baldwin County, Alabama", 5, "01003"⟩ rfl⟩

/-- C10: every output feature's rank (and log magnitude) is the 4-decimal
rounding of the unrounded value its csv row stores, and on `divergeRows`
the two artifacts indeed report different rank values for the same
identifier. -/
theorem claim_C10 :
    (∀ (rows : List CensusRow) (fs : List Feature),
      ∀ of ∈ matchedFeatures (cleanRows rows) fs,
        ∃ cr ∈ csvRows (cleanRows rows), cr.fips = of.fips ∧ of.population = cr.population ∧
          of.quantile = round4 cr.quantile ∧ geo_log_pop of = round4R (csv_log_pop cr)) ∧
    (∃ of ∈ matchedFeatures (cleanRows divergeRows) divergeFeatures,
      ∃ cr ∈ csvRows (cleanRows divergeRows), cr.fips = of.fips ∧ of.quantile ≠ cr.quantile) := by
  constructor
  · intro rows fs of hof
    obtain ⟨f, _, hm1⟩ := mem_matchedFeatures hof
    obtain ⟨info, hlook, hofe⟩ := matchFeature1_eq_some hm1
    obtain ⟨r, hr, hrf, hinfo⟩ := value_lookup_eq_some hlook
    subst hofe
    subst hinfo
    exact ⟨csvRow1 (cleanRows rows) r, List.mem_map_of_mem _ hr, hrf, rfl, rfl, rfl⟩
  · refine ⟨_, List.mem_cons_self _ _, _, List.mem_cons_self _ _, rfl, ?_⟩
    show round4 (pctRank [1, 2, 3] 1) ≠ pctRank [1, 2, 3] 1
    rw [pctRank_eval [1, 2, 3] 1 0 1 3 (by decide) (by decide) (by decide)]
    norm_num [round4, roundHalfEven]

/-- Witness for C10's universal part at the head feature of the scenario
output. -/
theorem claim_C10_witness :
    ∃ cr ∈ csvRows (cleanRows scenarioRows),
      cr.fips = (matchedFeatures (cleanRows scenarioRows) scenarioFeatures).headI.fips ∧
      (matchedFeatures (cleanRows scenarioRows) scenarioFeatures).headI.population
        = cr.population ∧
      (matchedFeatures (cleanRows scenarioRows) scenarioFeatures).headI.quantile
        = round4 cr.quantile ∧
      geo_log_pop ((matchedFeatures (cleanRows scenarioRows) scenarioFeatures).headI)
        = round4R (csv_log_pop cr) :=
  claim_C10.1 scenarioRows scenarioFeatures _ (List.mem_cons_self _ _)

end PopulationCounty
